import Mathlib

/-!
Verification of the cfssl-webui backend (src/backend/main.py) against its
natural-language specification.  The Python source is shallowly embedded:
pure helpers become Lean functions, the sqlite table becomes an explicit
`Store` value threaded through the handlers, the outbound HTTP call to the
CFSSL signer becomes a function argument `ca : CFSSLRequest → CAOutcome`,
and raised `HTTPException`s become the `.error` side of `Except`.
Timestamps are modelled as integer seconds (`datetime.utcnow()` is an
arbitrary `now : Int`; `timedelta(days=d)` is `d * 86400` seconds;
ISO-8601 serialisation round-trips exactly in Python, so it is modelled as
the identity).  The JSON serialisation of the `sans` list — the one codec
whose round-trip the spec's claims depend on — is embedded faithfully,
following CPython's `json.dumps` (default `ensure_ascii=True`) and
`json.loads` string scanners.
-/

/-- `fastapi.HTTPException`: a status code plus a human-readable detail. -/
structure HTTPError where
  status_code : Nat
  detail : String
  deriving Repr, DecidableEq

/-- The request body of `POST /certs` (pydantic model `CertCreate`),
with the source's defaults. -/
structure CertCreate where
  cn : String
  sans : List String := []
  profile : Option String := none
  country : Option String := none
  organization : Option String := none
  organizational_unit : Option String := none
  locality : Option String := none
  province : Option String := none
  key_algo : String := "rsa"
  key_size : Nat := 2048
  validity_option : String := "1y"
  validity_days : Option Int := none
  deriving Repr, DecidableEq

/-- `VALIDITY_OPTIONS_DAYS`: the preset table, as a lookup function
(`365`, `365*3`, `365*5`, `365*10`). -/
def VALIDITY_OPTIONS_DAYS : String → Option Int
  | "1y" => some 365
  | "3y" => some (365 * 3)
  | "5y" => some (365 * 5)
  | "10y" => some (365 * 10)
  | _ => none

/-- Python `cn.replace(".", "_")` for the single-character pattern:
every dot becomes an underscore. -/
def replaceDots (s : String) : String :=
  String.mk (s.data.map (fun c => if c = '.' then '_' else c))

/-- Python `str.lower()`, character by character.  `Char.toLower` lowers
only ASCII letters; Unicode-aware `str.lower()` agrees with it on every
comparison this program makes (no non-ASCII character lower-cases to any
character of the keys `"1y"`, `"3y"`, `"5y"`, `"10y"`, `"custom"`). -/
def pyLower (s : String) : String :=
  String.mk (s.data.map Char.toLower)

/-- `resolve_validity_days(payload)`.  Python's
`(payload.validity_option or "1y").lower()` replaces the empty string (the
only falsy `str`) by the default `"1y"` before lower-casing; the custom
branch's `not payload.validity_days or payload.validity_days <= 0` fails
exactly when the field is `None` or `≤ 0`. -/
def resolve_validity_days (payload : CertCreate) : Except HTTPError Int :=
  let option := pyLower (if payload.validity_option = "" then "1y" else payload.validity_option)
  match VALIDITY_OPTIONS_DAYS option with
  | some days => .ok days
  | none =>
    if option = "custom" then
      match payload.validity_days with
      | none => .error ⟨400, "请提供大于 0 的自定义有效期天数"⟩
      | some d => if d ≤ 0 then .error ⟨400, "请提供大于 0 的自定义有效期天数"⟩ else .ok d
    else .error ⟨400, "无效的有效期选项"⟩

/-- The `key` object of the CFSSL request body. -/
structure KeySpec where
  algo : String
  size : Nat
  deriving Repr, DecidableEq

/-- One entry of the CFSSL `names` list; absent fields are omitted keys. -/
structure NameEntry where
  C : Option String := none
  ST : Option String := none
  L : Option String := none
  O : Option String := none
  OU : Option String := none
  deriving Repr, DecidableEq

/-- The `request` object sent to CFSSL. -/
structure CFSSLRequestInner where
  CN : String
  hosts : List String
  key : KeySpec
  names : Option (List NameEntry) := none
  deriving Repr, DecidableEq

/-- The full JSON body POSTed to `CFSSL_ENDPOINT`. -/
structure CFSSLRequest where
  request : CFSSLRequestInner
  profile : Option String := none
  deriving Repr, DecidableEq

/-- Lines 192–220 of `create_cert`: assemble the CFSSL request.  The
`names` block is built only from the supplied (truthy, i.e. non-`none`
non-empty) fields and omitted when empty; `hosts` falls back to
`[payload.cn]` when `payload.sans` is the (falsy) empty list. -/
def build_cfssl_request (payload : CertCreate) : CFSSLRequest :=
  let truthy : Option String → Option String := fun o =>
    match o with
    | some s => if s = "" then none else some s
    | none => none
  let name_entry : NameEntry :=
    { C := truthy payload.country
      ST := truthy payload.province
      L := truthy payload.locality
      O := truthy payload.organization
      OU := truthy payload.organizational_unit }
  let names : List NameEntry := if name_entry = {} then [] else [name_entry]
  { request :=
      { CN := payload.cn
        hosts := if payload.sans.isEmpty then [payload.cn] else payload.sans
        key := { algo := payload.key_algo, size := payload.key_size }
        names := if names.isEmpty then none else some names }
    profile :=
      match payload.profile with
      | some p => if p = "" then none else some p
      | none => none }

/-- The `result` object of a CFSSL response body (fields may be absent). -/
structure CFSSLResult where
  certificate : Option String := none
  private_key : Option String := none
  serial_number : Option String := none
  deriving Repr, DecidableEq

/-- A parsed CFSSL response body: `success` flag (absent modelled as
`false`, which `body.get("success")` treats identically), `result`, and
the `errors` detail used in the failure message. -/
structure CFSSLBody where
  success : Bool
  result : CFSSLResult := {}
  errors : String := ""
  deriving Repr, DecidableEq

/-- The observable outcome of `requests.post(CFSSL_ENDPOINT, ...)`:
either a raised `requests.RequestException` or an HTTP response with a
status code, raw text and parsed JSON body. -/
inductive CAOutcome where
  | transportError (msg : String)
  | httpResponse (status_code : Nat) (text : String) (body : CFSSLBody)
  deriving Repr, DecidableEq

/-- Python string truthiness on an optional field: `None` and `""` are
falsy.  `not certificate_pem or not private_key_pem` passes exactly when
both fields survive this filter. -/
def pyTruthy : Option String → Option String
  | some s => if s = "" then none else some s
  | none => none

/-- One row of the `certificates` table.  `sans` holds the
JSON-serialised list exactly as `json.dumps` wrote it;
`validity_days` is the nullable column added by migration. -/
structure Row where
  id : Nat
  cn : String
  sans : String
  serial_number : Option String
  profile : Option String
  issued_at : Int
  expires_at : Int
  validity_days : Option Int
  status : String
  certificate_pem : String
  private_key_pem : String
  created_at : Int
  deriving Repr, DecidableEq

/-- The sqlite store: rows in insertion order plus the next
AUTOINCREMENT id. -/
structure Store where
  nextId : Nat := 1
  rows : List Row := []
  deriving Repr, DecidableEq

/-- `INSERT INTO certificates ...` followed by `cur.lastrowid`: append the
row under the next id and return that id. -/
def Store.insert (s : Store) (mk : Nat → Row) : Store × Nat :=
  ({ nextId := s.nextId + 1, rows := s.rows ++ [mk s.nextId] }, s.nextId)

/-- One lowercase hexadecimal digit, as CPython's `'\u%04x' % n` emits. -/
def hexDigit (n : Nat) : Char :=
  if n < 10 then Char.ofNat (48 + n) else Char.ofNat (87 + n)

/-- Four lowercase hex digits, most significant first. -/
def hex4 (n : Nat) : List Char :=
  [hexDigit (n / 4096 % 16), hexDigit (n / 256 % 16), hexDigit (n / 16 % 16), hexDigit (n % 16)]

/-- The `json.dumps` escaping of one character (default `ensure_ascii=True`):
backslash and quote get two-character escapes, the five control shorthands
likewise, printable ASCII (0x20–0x7E) passes through, every other scalar
becomes `\uXXXX` — as a surrogate pair when beyond the BMP. -/
def encodeChar (c : Char) : List Char :=
  if c = '\\' then ['\\', '\\']
  else if c = '"' then ['\\', '"']
  else if c = Char.ofNat 8 then ['\\', 'b']
  else if c = Char.ofNat 12 then ['\\', 'f']
  else if c = Char.ofNat 10 then ['\\', 'n']
  else if c = Char.ofNat 13 then ['\\', 'r']
  else if c = Char.ofNat 9 then ['\\', 't']
  else if 0x20 ≤ c.toNat ∧ c.toNat ≤ 0x7E then [c]
  else if c.toNat < 0x10000 then '\\' :: 'u' :: hex4 c.toNat
  else
    let n := c.toNat - 0x10000
    ('\\' :: 'u' :: hex4 (0xD800 + n / 0x400)) ++ ('\\' :: 'u' :: hex4 (0xDC00 + n % 0x400))

/-- A JSON string literal for `s`: quote, escaped characters, quote. -/
def encodeStringChars (s : String) : List Char :=
  '"' :: s.data.foldr (fun c acc => encodeChar c ++ acc) ['"']

/-- The elements of a JSON array, `", "`-separated (CPython's default
item separator). -/
def encodeElems : List String → List Char
  | [] => []
  | [x] => encodeStringChars x
  | x :: xs => encodeStringChars x ++ ',' :: ' ' :: encodeElems xs

/-- `json.dumps` on a list of strings. -/
def json_dumps_string_list (l : List String) : String :=
  String.mk ('[' :: (encodeElems l ++ [']']))

/-- The value of one hex digit, either case (CPython `_decode_uXXXX`). -/
def decodeHexDigit (c : Char) : Option Nat :=
  if 48 ≤ c.toNat ∧ c.toNat ≤ 57 then some (c.toNat - 48)
  else if 97 ≤ c.toNat ∧ c.toNat ≤ 102 then some (c.toNat - 87)
  else if 65 ≤ c.toNat ∧ c.toNat ≤ 70 then some (c.toNat - 55)
  else none

/-- Four hex digits to their value. -/
def decode4 (a b c d : Char) : Option Nat :=
  match decodeHexDigit a, decodeHexDigit b, decodeHexDigit c, decodeHexDigit d with
  | some x, some y, some z, some w => some (x * 4096 + y * 256 + z * 16 + w)
  | _, _, _, _ => none

/-- The two-character backslash escapes of JSON (CPython `BACKSLASH`). -/
def unescapeChar (e : Char) : Option Char :=
  if e = '"' then some '"'
  else if e = '\\' then some '\\'
  else if e = '/' then some '/'
  else if e = 'b' then some (Char.ofNat 8)
  else if e = 'f' then some (Char.ofNat 12)
  else if e = 'n' then some (Char.ofNat 10)
  else if e = 'r' then some (Char.ofNat 13)
  else if e = 't' then some (Char.ofNat 9)
  else none

/-- Prepend a decoded character to a string-scanner result. -/
def consHead (c : Char) : Option (List Char × List Char) → Option (List Char × List Char)
  | some (cs, r) => some (c :: cs, r)
  | none => none

/-- The `\uXXXX` logic of CPython's `py_scanstring`, after the four hex
digits have been decoded to `n`: a high surrogate must be followed by
`\u` and a low surrogate (together one astral scalar); `recur` scans the
remainder.  A Lean `Char` cannot hold a lone surrogate, so the inputs
that would decode to one — which `json.dumps` never writes — are rejected
rather than decoded. -/
def scanU (recur : List Char → Option (List Char × List Char)) (n : Nat) (rest2 : List Char) :
    Option (List Char × List Char) :=
  if 0xD800 ≤ n ∧ n < 0xDC00 then
    match rest2 with
    | e2 :: u2 :: a2 :: b2 :: c3 :: d2 :: rest3 =>
      if e2 = '\\' ∧ u2 = 'u' then
        match decode4 a2 b2 c3 d2 with
        | none => none
        | some m =>
          if 0xDC00 ≤ m ∧ m < 0xE000 then
            consHead (Char.ofNat (0x10000 + (n - 0xD800) * 0x400 + (m - 0xDC00))) (recur rest3)
          else none
      else none
    | _ => none
  else if 0xDC00 ≤ n ∧ n < 0xE000 then none
  else consHead (Char.ofNat n) (recur rest2)

/-- What follows a backslash: `u` and four hex digits, or one of the
two-character escapes. -/
def scanEscape (recur : List Char → Option (List Char × List Char)) (e : Char)
    (rest1 : List Char) : Option (List Char × List Char) :=
  if e = 'u' then
    match rest1 with
    | a :: b :: c2 :: d :: rest2 =>
      (match decode4 a b c2 d with
       | none => none
       | some n => scanU recur n rest2)
    | _ => none
  else
    match unescapeChar e with
    | none => none
    | some ch => consHead ch (recur rest1)

/-- One step of CPython `json.decoder.py_scanstring` (strict mode) after
the opening quote: the closing quote ends the literal, a backslash starts
an escape, raw control characters are rejected, anything else is taken
verbatim. -/
def psbStep (recur : List Char → Option (List Char × List Char)) :
    List Char → Option (List Char × List Char)
  | [] => none
  | c :: rest =>
    if c = '"' then some ([], rest)
    else if c = '\\' then
      match rest with
      | [] => none
      | e :: rest1 => scanEscape recur e rest1
    else if c.toNat < 0x20 then none
    else consHead c (recur rest)

/-- The string scanner: one fuel unit per decoded character.  Callers pass
fuel larger than the input length, which one step per character (each step
consumes at least one input character) can never exhaust. -/
def parseStringBody : Nat → List Char → Option (List Char × List Char)
  | 0, _ => none
  | fuel + 1, l => psbStep (parseStringBody fuel) l

/-- JSON whitespace skipping (space, tab, newline, carriage return). -/
def skipWs : List Char → List Char
  | [] => []
  | c :: rest =>
    if c = ' ' ∨ c = Char.ofNat 9 ∨ c = Char.ofNat 10 ∨ c = Char.ofNat 13 then skipWs rest
    else c :: rest

/-- The element loop of decoding a JSON array of strings: after each
element, either the closing bracket (and then end of input) or a comma and
the next string.  The fuel argument only bounds the number of elements;
`json_loads_string_list` passes more than the input could ever hold. -/
def parseLoop : Nat → List String → List Char → Option (List String)
  | 0, _, _ => none
  | fuel + 1, acc, l =>
    match skipWs l with
    | [] => none
    | c :: rest =>
      if c = ']' then (if skipWs rest = [] then some acc.reverse else none)
      else if c = ',' then
        match skipWs rest with
        | [] => none
        | c2 :: rest2 =>
          if c2 = '"' then
            match parseStringBody (rest2.length + 1) rest2 with
            | some (cs, r) => parseLoop fuel (String.mk cs :: acc) r
            | none => none
          else none
      else none

/-- `json.loads` restricted to the shape this table ever stores: one JSON
array of strings with nothing but whitespace around it. -/
def json_loads_string_list (s : String) : Option (List String) :=
  match skipWs s.data with
  | [] => none
  | c :: rest =>
    if c = '[' then
      match skipWs rest with
      | [] => none
      | c2 :: rest2 =>
        if c2 = ']' then (if skipWs rest2 = [] then some [] else none)
        else if c2 = '"' then
          match parseStringBody (rest2.length + 1) rest2 with
          | some (cs, r) => parseLoop (r.length + 1) [String.mk cs] r
          | none => none
        else none
    else none

/-- Response model `CertOut`: the list/read shape, whose only trace of the
private key is the boolean `has_private_key`. -/
structure CertOut where
  id : Nat
  cn : String
  sans : List String
  serial_number : Option String
  profile : Option String
  issued_at : Int
  expires_at : Int
  status : String
  certificate_pem : String
  has_private_key : Bool
  validity_days : Option Int
  deriving Repr, DecidableEq

/-- Response model `CertCreateResponse`: `CertOut` plus the private key,
returned only by `POST /certs`. -/
structure CertCreateResponse extends CertOut where
  private_key_pem : String
  deriving Repr, DecidableEq

instance {ε α : Type} [DecidableEq ε] [DecidableEq α] : DecidableEq (Except ε α) := fun x y =>
  match x, y with
  | .ok a, .ok b =>
    if h : a = b then isTrue (by rw [h]) else isFalse (by intro hc; injection hc with h2; exact h h2)
  | .ok _, .error _ => isFalse (by intro hc; exact Except.noConfusion hc)
  | .error _, .ok _ => isFalse (by intro hc; exact Except.noConfusion hc)
  | .error a, .error b =>
    if h : a = b then isTrue (by rw [h]) else isFalse (by intro hc; injection hc with h2; exact h h2)

/-- What one `POST /certs` request leaves behind: the HTTP outcome, the
store afterwards, and whether the CFSSL endpoint was contacted at all. -/
structure CreateResult where
  outcome : Except HTTPError CertCreateResponse
  store : Store
  caCalled : Bool
  deriving Repr, DecidableEq

/-- `POST /certs` (`create_cert`, lines 186–289): resolve the validity,
build and send the CFSSL request, check the four failure conditions,
insert the row, and return the full record with the private key. -/
def create_cert (payload : CertCreate) (now : Int) (ca : CFSSLRequest → CAOutcome)
    (s : Store) : CreateResult :=
  let issued_at := now
  match resolve_validity_days payload with
  | .error e => ⟨.error e, s, false⟩
  | .ok validity_days =>
    let expires_at := issued_at + validity_days * 86400
    let cfssl_request := build_cfssl_request payload
    match ca cfssl_request with
    | .transportError msg => ⟨.error ⟨502, "Failed to reach CFSSL: " ++ msg⟩, s, true⟩
    | .httpResponse status_code text body =>
      if status_code ≠ 200 then ⟨.error ⟨502, "CFSSL error: " ++ text⟩, s, true⟩
      else if !body.success then ⟨.error ⟨502, body.errors⟩, s, true⟩
      else
        match pyTruthy body.result.certificate, pyTruthy body.result.private_key with
        | some certificate_pem, some private_key_pem =>
          let sansStored := if payload.sans.isEmpty then [payload.cn] else payload.sans
          let ins := s.insert (fun newId =>
            { id := newId
              cn := payload.cn
              sans := json_dumps_string_list sansStored
              serial_number := body.result.serial_number
              profile := payload.profile
              issued_at := issued_at
              expires_at := expires_at
              validity_days := some validity_days
              status := "valid"
              certificate_pem := certificate_pem
              private_key_pem := private_key_pem
              created_at := issued_at })
          ⟨.ok
            { id := ins.2
              cn := payload.cn
              sans := sansStored
              serial_number := body.result.serial_number
              profile := payload.profile
              issued_at := issued_at
              expires_at := expires_at
              status := "valid"
              certificate_pem := certificate_pem
              has_private_key := true
              validity_days := some validity_days
              private_key_pem := private_key_pem }, ins.1, true⟩
        | _, _ => ⟨.error ⟨500, "CFSSL response missing certificate or key"⟩, s, true⟩

/-- The four CA-call failure conditions, exactly as `create_cert` tests
them: raised transport exception, non-200 status, falsy `success` flag,
or a falsy certificate / private-key field despite success. -/
def caFails : CAOutcome → Bool
  | .transportError _ => true
  | .httpResponse status_code _ body =>
    status_code ≠ 200 || !body.success ||
      (pyTruthy body.result.certificate).isNone || (pyTruthy body.result.private_key).isNone

/-- One SELECTed row of `GET /certs` mapped to a `CertOut`:
`has_private_key` is the SQL `CASE WHEN private_key_pem IS NULL OR
private_key_pem = '' THEN 0 ELSE 1 END` (the column is NOT NULL, so only
the empty string is falsy), and `sans` is `json.loads` of the stored
text — whose failure would propagate as an exception, here `none`. -/
def rowToOut (r : Row) : Option CertOut :=
  match json_loads_string_list r.sans with
  | none => none
  | some sans =>
    some { id := r.id
           cn := r.cn
           sans := sans
           serial_number := r.serial_number
           profile := r.profile
           issued_at := r.issued_at
           expires_at := r.expires_at
           status := r.status
           certificate_pem := r.certificate_pem
           has_private_key := r.private_key_pem ≠ ""
           validity_days := r.validity_days }

/-- The comparison of `ORDER BY id DESC`: earlier rows have the larger id. -/
def rowGe (a b : Row) : Prop := b.id ≤ a.id

instance : DecidableRel rowGe := fun a b => Nat.decLe b.id a.id

instance : IsTotal Row rowGe := ⟨fun a b => Nat.le_total b.id a.id⟩

instance : IsTrans Row rowGe := ⟨fun _ _ _ h1 h2 => Nat.le_trans h2 h1⟩

/-- The `ORDER BY id DESC` of the `GET /certs` SELECT. -/
def sortByIdDesc (rows : List Row) : List Row :=
  List.insertionSort rowGe rows

/-- Map every row, failing if any row's stored `sans` does not parse. -/
def mapRows : List Row → Option (List CertOut)
  | [] => some []
  | r :: rs =>
    match rowToOut r, mapRows rs with
    | some o, some os => some (o :: os)
    | _, _ => none

/-- `GET /certs` (`list_certs`, lines 154–183). -/
def list_certs (s : Store) : Option (List CertOut) :=
  mapRows (sortByIdDesc s.rows)

/-- `_get_certificate_row`: `SELECT * FROM certificates WHERE id = ?`,
404 when no row matches. -/
def _get_certificate_row (s : Store) (cert_id : Nat) : Except HTTPError Row :=
  match s.rows.find? (fun r => r.id == cert_id) with
  | none => .error ⟨404, "Certificate not found"⟩
  | some row => .ok row

/-- What `GET /certs/.../download.pem` streams back. -/
structure PemDownload where
  body : String
  media_type : String
  filename : String
  deriving Repr, DecidableEq

/-- `download_pem` (lines 302–311): the PEM bundle
`certificate_pem + "\n" + private_key_pem + "\n"` as an attachment; no
check of the private key is made on this path. -/
def download_pem (s : Store) (cert_id : Nat) : Except HTTPError PemDownload :=
  match _get_certificate_row s cert_id with
  | .error e => .error e
  | .ok row =>
    .ok { body := row.certificate_pem ++ "\n" ++ row.private_key_pem ++ "\n"
          media_type := "application/x-pem-file"
          filename := "cert_" ++ toString cert_id ++ "_" ++ replaceDots row.cn ++ ".pem" }

/-- The encryption argument passed to the PKCS#12 serialisation. -/
inductive EncryptionAlg where
  | bestAvailable (password : String)
  | noEncryption
  deriving Repr, DecidableEq

/-- What `GET /certs/.../download.p12` streams back.  The library call
`serialize_key_and_certificates` is modelled by recording its arguments:
the friendly name, the PEM pair it re-encodes, and the chosen
encryption algorithm. -/
structure P12Download where
  friendly_name : String
  key_pem : String
  cert_pem : String
  encryption : EncryptionAlg
  media_type : String
  filename : String
  deriving Repr, DecidableEq

/-- `download_p12` (lines 314–343): 404 when the row is missing or its
private key column is empty; `BestAvailableEncryption(password)` exactly
when the query parameter is truthy (present and non-empty), else
`NoEncryption`; friendly name is the row's common name. -/
def download_p12 (s : Store) (cert_id : Nat) (password : Option String) :
    Except HTTPError P12Download :=
  match _get_certificate_row s cert_id with
  | .error e => .error e
  | .ok row =>
    if row.private_key_pem = "" then .error ⟨404, "Private key not available"⟩
    else
      .ok { friendly_name := row.cn
            key_pem := row.private_key_pem
            cert_pem := row.certificate_pem
            encryption :=
              match pyTruthy password with
              | some p => EncryptionAlg.bestAvailable p
              | none => EncryptionAlg.noEncryption
            media_type := "application/x-pkcs12"
            filename := "cert_" ++ toString cert_id ++ "_" ++ replaceDots row.cn ++ ".p12" }

/-- What follows in the encoded array once one element has been consumed:
either the closing bracket or `", "` and the next string literal. -/
def encodeTail : List String → List Char
  | [] => [']']
  | x :: xs => ',' :: ' ' :: (encodeStringChars x ++ encodeTail xs)

/-- Concrete certificate row used to instantiate the theorems below. -/
def sampleRow : Row :=
  { id := 1
    cn := "web.example.com"
    sans := json_dumps_string_list ["web.example.com"]
    serial_number := some "1234"
    profile := none
    issued_at := 0
    expires_at := 31536000
    validity_days := some 365
    status := "valid"
    certificate_pem := "CERT"
    private_key_pem := "KEY"
    created_at := 0 }

/-- The same row with an empty private-key column. -/
def keylessRow : Row :=
  { sampleRow with private_key_pem := "" }

/-- A store holding `sampleRow`. -/
def sampleStore : Store := { nextId := 2, rows := [sampleRow] }

/-- A store holding `keylessRow`. -/
def keylessStore : Store := { nextId := 2, rows := [keylessRow] }

/-- A minimal creation request (all defaults but the common name). -/
def samplePayload : CertCreate := { cn := "web.example.com" }

/-- A CA that is unreachable: every call raises a transport error. -/
def caRefused : CFSSLRequest → CAOutcome := fun _ => .transportError "connection refused"

/-- A CA that answers every call with a well-formed success. -/
def caOk : CFSSLRequest → CAOutcome := fun _ =>
  .httpResponse 200 ""
    { success := true
      result :=
        { certificate := some "CERT"
          private_key := some "KEY"
          serial_number := some "1234" } }

/-- Replace every row's private-key column via `f` (used to state that
list summaries depend on the key material only through its emptiness). -/
def Store.scrubKeys (s : Store) (f : Row → String) : Store :=
  { s with rows := s.rows.map (fun r => { r with private_key_pem := f r }) }

/-- A request with an upper-case preset and a (to-be-ignored) custom count. -/
def upperPayload : CertCreate :=
  { cn := "web.example.com", validity_option := "1Y", validity_days := some 999 }

/-- A request with a positive custom validity. -/
def customPayload : CertCreate :=
  { cn := "web.example.com", validity_option := "custom", validity_days := some 90 }

/-- A custom-validity request with the day count absent. -/
def customBadPayload : CertCreate :=
  { cn := "web.example.com", validity_option := "custom" }

/-- A request with an unrecognized validity option. -/
def unknownPayload : CertCreate :=
  { cn := "web.example.com", validity_option := "2y" }

/-- A request with the empty string as validity option (falsy in Python). -/
def emptyPayload : CertCreate :=
  { cn := "web.example.com", validity_option := "" }

theorem decodeHexDigit_hexDigit (k : Nat) (h : k < 16) : decodeHexDigit (hexDigit k) = some k := by
  interval_cases k <;> decide

theorem decode4_hex4 (n : Nat) (h : n < 65536) :
    decode4 (hexDigit (n / 4096 % 16)) (hexDigit (n / 256 % 16))
      (hexDigit (n / 16 % 16)) (hexDigit (n % 16)) = some n := by
  have h1 : n / 4096 % 16 < 16 := Nat.mod_lt _ (by norm_num)
  have h2 : n / 256 % 16 < 16 := Nat.mod_lt _ (by norm_num)
  have h3 : n / 16 % 16 < 16 := Nat.mod_lt _ (by norm_num)
  have h4 : n % 16 < 16 := Nat.mod_lt _ (by norm_num)
  simp only [decode4, decodeHexDigit_hexDigit _ h1, decodeHexDigit_hexDigit _ h2,
    decodeHexDigit_hexDigit _ h3, decodeHexDigit_hexDigit _ h4]
  congr 1
  omega

theorem char_toNat_valid (c : Char) :
    c.toNat < 55296 ∨ (57343 < c.toNat ∧ c.toNat < 1114112) := c.valid

theorem psb_quote (fuel : Nat) (rest : List Char) :
    parseStringBody (fuel + 1) ('"' :: rest) = some ([], rest) := by
  simp [parseStringBody, psbStep]

theorem psbStep_backslash (recur : List Char → Option (List Char × List Char))
    (e : Char) (rest1 : List Char) :
    psbStep recur ('\\' :: e :: rest1) = scanEscape recur e rest1 := by
  simp [psbStep]

theorem psbStep_plain (recur : List Char → Option (List Char × List Char)) {c : Char}
    (h2 : ¬ c = '"') (h1 : ¬ c = '\\') (hc : ¬ c.toNat < 0x20) (rest : List Char) :
    psbStep recur (c :: rest) = consHead c (recur rest) := by
  simp [psbStep, h1, h2, hc]

theorem scanEscape_esc (recur : List Char → Option (List Char × List Char)) {e ch : Char}
    (hne : ¬ e = 'u') (hu : unescapeChar e = some ch) (rest1 : List Char) :
    scanEscape recur e rest1 = consHead ch (recur rest1) := by
  simp [scanEscape, hne, hu]

theorem scanEscape_u (recur : List Char → Option (List Char × List Char))
    {a b c2 d : Char} {n : Nat} (hd : decode4 a b c2 d = some n) (rest2 : List Char) :
    scanEscape recur 'u' (a :: b :: c2 :: d :: rest2) = scanU recur n rest2 := by
  simp [scanEscape, hd]

theorem scanU_bmp (recur : List Char → Option (List Char × List Char)) {n : Nat}
    (hn1 : ¬ (0xD800 ≤ n ∧ n < 0xDC00)) (hn2 : ¬ (0xDC00 ≤ n ∧ n < 0xE000))
    (rest2 : List Char) :
    scanU recur n rest2 = consHead (Char.ofNat n) (recur rest2) := by
  simp [scanU, hn1, hn2]

theorem scanU_pair (recur : List Char → Option (List Char × List Char)) {n : Nat}
    (hn : 0xD800 ≤ n ∧ n < 0xDC00) {a2 b2 c3 d2 : Char} {m : Nat}
    (hm : decode4 a2 b2 c3 d2 = some m) (hm2 : 0xDC00 ≤ m ∧ m < 0xE000)
    (rest3 : List Char) :
    scanU recur n ('\\' :: 'u' :: a2 :: b2 :: c3 :: d2 :: rest3) =
      consHead (Char.ofNat (0x10000 + (n - 0xD800) * 0x400 + (m - 0xDC00))) (recur rest3) := by
  simp [scanU, hn, hm, hm2]

theorem psbStep_encodeChar (recur : List Char → Option (List Char × List Char))
    (c : Char) (X : List Char) :
    psbStep recur (encodeChar c ++ X) = consHead c (recur X) := by
  have hv := char_toNat_valid c
  by_cases h1 : c = '\\'
  · subst h1
    rw [show encodeChar '\\' ++ X = '\\' :: '\\' :: X by rfl, psbStep_backslash,
      scanEscape_esc recur (by decide) (by decide : unescapeChar '\\' = some '\\') X]
  by_cases h2 : c = '"'
  · subst h2
    rw [show encodeChar '"' ++ X = '\\' :: '"' :: X by rfl, psbStep_backslash,
      scanEscape_esc recur (by decide) (by decide : unescapeChar '"' = some '"') X]
  by_cases h3 : c = Char.ofNat 8
  · subst h3
    rw [show encodeChar (Char.ofNat 8) ++ X = '\\' :: 'b' :: X by rfl, psbStep_backslash,
      scanEscape_esc recur (by decide) (by decide : unescapeChar 'b' = some (Char.ofNat 8)) X]
  by_cases h4 : c = Char.ofNat 12
  · subst h4
    rw [show encodeChar (Char.ofNat 12) ++ X = '\\' :: 'f' :: X by rfl, psbStep_backslash,
      scanEscape_esc recur (by decide) (by decide : unescapeChar 'f' = some (Char.ofNat 12)) X]
  by_cases h5 : c = Char.ofNat 10
  · subst h5
    rw [show encodeChar (Char.ofNat 10) ++ X = '\\' :: 'n' :: X by rfl, psbStep_backslash,
      scanEscape_esc recur (by decide) (by decide : unescapeChar 'n' = some (Char.ofNat 10)) X]
  by_cases h6 : c = Char.ofNat 13
  · subst h6
    rw [show encodeChar (Char.ofNat 13) ++ X = '\\' :: 'r' :: X by rfl, psbStep_backslash,
      scanEscape_esc recur (by decide) (by decide : unescapeChar 'r' = some (Char.ofNat 13)) X]
  by_cases h7 : c = Char.ofNat 9
  · subst h7
    rw [show encodeChar (Char.ofNat 9) ++ X = '\\' :: 't' :: X by rfl, psbStep_backslash,
      scanEscape_esc recur (by decide) (by decide : unescapeChar 't' = some (Char.ofNat 9)) X]
  by_cases h8 : 0x20 ≤ c.toNat ∧ c.toNat ≤ 0x7E
  · have hc : ¬ c.toNat < 0x20 := by omega
    simp only [encodeChar, if_neg h1, if_neg h2, if_neg h3, if_neg h4, if_neg h5, if_neg h6,
      if_neg h7, if_pos h8, List.cons_append, List.nil_append]
    rw [psbStep_plain recur h2 h1 hc]
  by_cases h9 : c.toNat < 0x10000
  · have hns : ¬ (0xD800 ≤ c.toNat ∧ c.toNat < 0xDC00) := by omega
    have hns2 : ¬ (0xDC00 ≤ c.toNat ∧ c.toNat < 0xE000) := by omega
    simp only [encodeChar, if_neg h1, if_neg h2, if_neg h3, if_neg h4, if_neg h5, if_neg h6,
      if_neg h7, if_neg h8, if_pos h9, hex4, List.cons_append, List.nil_append]
    rw [psbStep_backslash, scanEscape_u recur (decode4_hex4 _ h9), scanU_bmp recur hns hns2,
      Char.ofNat_toNat]
  · have hhi : 0xD800 ≤ 0xD800 + (c.toNat - 0x10000) / 0x400 ∧
        0xD800 + (c.toNat - 0x10000) / 0x400 < 0xDC00 := by omega
    have hd1 : 0xD800 + (c.toNat - 0x10000) / 0x400 < 65536 := by omega
    have hd2 : 0xDC00 + (c.toNat - 0x10000) % 0x400 < 65536 := by omega
    have hlo : 0xDC00 ≤ 0xDC00 + (c.toNat - 0x10000) % 0x400 ∧
        0xDC00 + (c.toNat - 0x10000) % 0x400 < 0xE000 := by omega
    simp only [encodeChar, if_neg h1, if_neg h2, if_neg h3, if_neg h4, if_neg h5, if_neg h6,
      if_neg h7, if_neg h8, if_neg h9, hex4, List.cons_append, List.nil_append,
      List.append_assoc]
    rw [psbStep_backslash, scanEscape_u recur (decode4_hex4 _ hd1),
      scanU_pair recur hhi (decode4_hex4 _ hd2) hlo,
      show 0x10000 + (0xD800 + (c.toNat - 0x10000) / 0x400 - 0xD800) * 0x400 +
        (0xDC00 + (c.toNat - 0x10000) % 0x400 - 0xDC00) = c.toNat from by omega,
      Char.ofNat_toNat]

theorem parseStringBody_succ (fuel : Nat) (l : List Char) :
    parseStringBody (fuel + 1) l = psbStep (parseStringBody fuel) l := rfl

theorem parseStringBody_encodeBody (s : List Char) : ∀ (fuel : Nat), s.length < fuel →
    ∀ (rest : List Char),
    parseStringBody fuel (s.foldr (fun c acc => encodeChar c ++ acc) ['"'] ++ rest) =
      some (s, rest) := by
  induction s with
  | nil =>
    intro fuel hf rest
    match fuel, hf with
    | fuel + 1, _ => simpa using psb_quote fuel rest
  | cons c s ih =>
    intro fuel hf rest
    match fuel, hf with
    | fuel + 1, hf =>
      have hlt : s.length < fuel := by
        have := Nat.lt_of_succ_lt_succ (by simpa using hf)
        simpa using this
      rw [List.foldr_cons, List.append_assoc, parseStringBody_succ, psbStep_encodeChar,
        ih fuel hlt rest]
      rfl

theorem skipWs_cons_not_ws {c : Char}
    (h : ¬ (c = ' ' ∨ c = Char.ofNat 9 ∨ c = Char.ofNat 10 ∨ c = Char.ofNat 13))
    (l : List Char) : skipWs (c :: l) = c :: l := by
  simp [skipWs, h]

theorem skipWs_cons_ws {c : Char}
    (h : c = ' ' ∨ c = Char.ofNat 9 ∨ c = Char.ofNat 10 ∨ c = Char.ofNat 13)
    (l : List Char) : skipWs (c :: l) = skipWs l := by
  rw [skipWs]
  simp [h]

theorem encodeChar_length_pos (c : Char) : 1 ≤ (encodeChar c).length := by
  unfold encodeChar
  split_ifs <;> simp [hex4]

theorem foldr_encode_length (s : List Char) :
    s.length + 1 ≤ (s.foldr (fun c acc => encodeChar c ++ acc) ['"']).length := by
  induction s with
  | nil => simp
  | cons c s ih =>
    simp only [List.foldr_cons, List.length_append, List.length_cons]
    have := encodeChar_length_pos c
    omega

theorem String_mk_data (s : String) : String.mk s.data = s := by
  cases s
  rfl

theorem encodeStringChars_append (x : String) (t : List Char) :
    encodeStringChars x ++ t =
      '"' :: (x.data.foldr (fun c acc => encodeChar c ++ acc) ['"'] ++ t) := by
  simp [encodeStringChars]

theorem parseLoop_encodeTail (xs : List String) : ∀ (fuel : Nat), xs.length < fuel →
    ∀ (acc : List String),
    parseLoop fuel acc (encodeTail xs) = some (acc.reverse ++ xs) := by
  induction xs with
  | nil =>
    intro fuel hf acc
    match fuel, hf with
    | fuel + 1, _ =>
      rw [show encodeTail [] = [']'] from rfl, parseLoop,
        skipWs_cons_not_ws (by decide) []]
      simp [skipWs]
  | cons x xs ih =>
    intro fuel hf acc
    match fuel, hf with
    | fuel + 1, hf =>
      have hlt : xs.length < fuel := by
        have h2 : xs.length + 1 < fuel + 1 := by simpa using hf
        omega
      rw [show encodeTail (x :: xs) = ',' :: ' ' :: (encodeStringChars x ++ encodeTail xs)
          from rfl, parseLoop, skipWs_cons_not_ws (by decide)]
      simp only []
      rw [if_true, skipWs_cons_ws (by decide), encodeStringChars_append,
        skipWs_cons_not_ws (by decide)]
      simp only []
      rw [if_true,
        parseStringBody_encodeBody x.data _
          (by
            have := foldr_encode_length x.data
            simp only [List.length_append]
            omega)
          (encodeTail xs)]
      simp only []
      rw [String_mk_data, ih fuel hlt (x :: acc)]
      simp

theorem encodeElems_split (xs : List String) : ∀ (x : String),
    encodeElems (x :: xs) ++ [']'] = encodeStringChars x ++ encodeTail xs := by
  induction xs with
  | nil => intro x; simp [encodeElems, encodeTail]
  | cons y ys ih =>
    intro x
    rw [show encodeElems (x :: y :: ys) = encodeStringChars x ++ ',' :: ' ' :: encodeElems (y :: ys)
        from rfl,
      show encodeTail (y :: ys) = ',' :: ' ' :: (encodeStringChars y ++ encodeTail ys) from rfl,
      List.append_assoc]
    simp only [List.cons_append]
    rw [ih y]

theorem length_le_encodeTail (xs : List String) : xs.length + 1 ≤ (encodeTail xs).length := by
  induction xs with
  | nil => simp [encodeTail]
  | cons x xs ih =>
    simp only [encodeTail, List.length_cons, List.length_append]
    omega

/-- The round trip at the heart of claims C8 and C10: what `json.dumps`
wrote, `json.loads` reads back unchanged, for every list of strings. -/
theorem json_roundtrip (l : List String) :
    json_loads_string_list (json_dumps_string_list l) = some l := by
  cases l with
  | nil => decide
  | cons x xs =>
    have hdata : (json_dumps_string_list (x :: xs)).data =
        '[' :: (encodeElems (x :: xs) ++ [']']) := rfl
    rw [json_loads_string_list, hdata, skipWs_cons_not_ws (by decide)]
    simp only []
    rw [if_true, encodeElems_split xs x, encodeStringChars_append,
      skipWs_cons_not_ws (by decide)]
    simp only []
    rw [if_true,
      parseStringBody_encodeBody x.data _
        (by
          have := foldr_encode_length x.data
          simp only [List.length_append]
          omega)
        (encodeTail xs)]
    simp only []
    rw [String_mk_data,
      parseLoop_encodeTail xs _ (by have := length_le_encodeTail xs; omega) [x]]
    simp

theorem create_cert_resolve_error (payload : CertCreate) (now : Int)
    (ca : CFSSLRequest → CAOutcome) (s : Store) (e : HTTPError)
    (hres : resolve_validity_days payload = .error e) :
    create_cert payload now ca s = ⟨.error e, s, false⟩ := by
  simp [create_cert, hres]

theorem create_cert_transport (payload : CertCreate) (now : Int)
    (ca : CFSSLRequest → CAOutcome) (s : Store) (d : Int) (msg : String)
    (hres : resolve_validity_days payload = .ok d)
    (hca : ca (build_cfssl_request payload) = .transportError msg) :
    create_cert payload now ca s =
      ⟨.error ⟨502, "Failed to reach CFSSL: " ++ msg⟩, s, true⟩ := by
  simp [create_cert, hres, hca]

theorem create_cert_badStatus (payload : CertCreate) (now : Int)
    (ca : CFSSLRequest → CAOutcome) (s : Store) (d : Int)
    (status_code : Nat) (text : String) (body : CFSSLBody)
    (hres : resolve_validity_days payload = .ok d)
    (hca : ca (build_cfssl_request payload) = .httpResponse status_code text body)
    (hst : status_code ≠ 200) :
    create_cert payload now ca s = ⟨.error ⟨502, "CFSSL error: " ++ text⟩, s, true⟩ := by
  simp [create_cert, hres, hca, hst]

theorem create_cert_notSuccess (payload : CertCreate) (now : Int)
    (ca : CFSSLRequest → CAOutcome) (s : Store) (d : Int)
    (text : String) (body : CFSSLBody)
    (hres : resolve_validity_days payload = .ok d)
    (hca : ca (build_cfssl_request payload) = .httpResponse 200 text body)
    (hsucc : body.success = false) :
    create_cert payload now ca s = ⟨.error ⟨502, body.errors⟩, s, true⟩ := by
  simp [create_cert, hres, hca, hsucc]

theorem create_cert_missingField (payload : CertCreate) (now : Int)
    (ca : CFSSLRequest → CAOutcome) (s : Store) (d : Int)
    (text : String) (body : CFSSLBody)
    (hres : resolve_validity_days payload = .ok d)
    (hca : ca (build_cfssl_request payload) = .httpResponse 200 text body)
    (hsucc : body.success = true)
    (hmiss : pyTruthy body.result.certificate = none ∨ pyTruthy body.result.private_key = none) :
    create_cert payload now ca s =
      ⟨.error ⟨500, "CFSSL response missing certificate or key"⟩, s, true⟩ := by
  rcases hmiss with hmiss | hmiss
  · simp [create_cert, hres, hca, hsucc, hmiss]
  · cases hcert : pyTruthy body.result.certificate <;>
      simp [create_cert, hres, hca, hsucc, hmiss, hcert]

theorem create_cert_successful (payload : CertCreate) (now : Int)
    (ca : CFSSLRequest → CAOutcome) (s : Store) (d : Int)
    (text : String) (body : CFSSLBody) (cert key : String)
    (hres : resolve_validity_days payload = .ok d)
    (hca : ca (build_cfssl_request payload) = .httpResponse 200 text body)
    (hsucc : body.success = true)
    (hcert : pyTruthy body.result.certificate = some cert)
    (hkey : pyTruthy body.result.private_key = some key) :
    create_cert payload now ca s =
      ⟨.ok
        { id := s.nextId
          cn := payload.cn
          sans := if payload.sans.isEmpty then [payload.cn] else payload.sans
          serial_number := body.result.serial_number
          profile := payload.profile
          issued_at := now
          expires_at := now + d * 86400
          status := "valid"
          certificate_pem := cert
          has_private_key := true
          validity_days := some d
          private_key_pem := key },
      { nextId := s.nextId + 1
        rows := s.rows ++
          [{ id := s.nextId
             cn := payload.cn
             sans := json_dumps_string_list
               (if payload.sans.isEmpty then [payload.cn] else payload.sans)
             serial_number := body.result.serial_number
             profile := payload.profile
             issued_at := now
             expires_at := now + d * 86400
             validity_days := some d
             status := "valid"
             certificate_pem := cert
             private_key_pem := key
             created_at := now }] },
      true⟩ := by
  simp [create_cert, Store.insert, hres, hca, hsucc, hcert, hkey]

theorem resolve_preset (payload : CertCreate) (key : String) (days : Int)
    (hne : payload.validity_option ≠ "")
    (hk : pyLower payload.validity_option = key)
    (hd : VALIDITY_OPTIONS_DAYS key = some days) :
    resolve_validity_days payload = .ok days := by
  simp [resolve_validity_days, if_neg hne, hk, hd]

theorem resolve_empty (payload : CertCreate) (he : payload.validity_option = "") :
    resolve_validity_days payload = .ok 365 := by
  simp only [resolve_validity_days, he]
  rw [if_true, show pyLower "1y" = "1y" from by decide,
    show VALIDITY_OPTIONS_DAYS "1y" = some 365 from by decide]

theorem resolve_custom_none (payload : CertCreate)
    (hne : payload.validity_option ≠ "")
    (hk : pyLower payload.validity_option = "custom")
    (hnone : payload.validity_days = none) :
    resolve_validity_days payload = .error ⟨400, "请提供大于 0 的自定义有效期天数"⟩ := by
  simp [resolve_validity_days, if_neg hne, hk, hnone]
  decide

theorem resolve_custom_nonpos (payload : CertCreate) (dd : Int)
    (hne : payload.validity_option ≠ "")
    (hk : pyLower payload.validity_option = "custom")
    (hsome : payload.validity_days = some dd) (hle : dd ≤ 0) :
    resolve_validity_days payload = .error ⟨400, "请提供大于 0 的自定义有效期天数"⟩ := by
  simp [resolve_validity_days, if_neg hne, hk, hsome, hle]
  decide

theorem resolve_custom_pos (payload : CertCreate) (dd : Int)
    (hne : payload.validity_option ≠ "")
    (hk : pyLower payload.validity_option = "custom")
    (hsome : payload.validity_days = some dd) (hpos : 0 < dd) :
    resolve_validity_days payload = .ok dd := by
  simp only [resolve_validity_days, if_neg hne, hk, hsome]
  simp [hpos.not_le]
  rw [show VALIDITY_OPTIONS_DAYS "custom" = none from by decide]

theorem resolve_unknown (payload : CertCreate)
    (hne : payload.validity_option ≠ "")
    (hnp : VALIDITY_OPTIONS_DAYS (pyLower payload.validity_option) = none)
    (hnc : pyLower payload.validity_option ≠ "custom") :
    resolve_validity_days payload = .error ⟨400, "无效的有效期选项"⟩ := by
  simp [resolve_validity_days, if_neg hne, hnp, hnc]

theorem toLower_ne_empty {v : String} {key : String} (hk : pyLower v = key)
    (hkey : key ≠ "") : v ≠ "" := by
  intro h
  rw [h] at hk
  apply hkey
  rw [← hk]
  decide

theorem pyTruthy_ne_empty {o : Option String} {k : String} (h : pyTruthy o = some k) :
    k ≠ "" := by
  cases o with
  | none => exact absurd h (by simp [pyTruthy])
  | some s =>
    by_cases hs : s = ""
    · simp [pyTruthy, hs] at h
    · simp [pyTruthy, hs] at h
      subst h
      exact hs

theorem rowToOut_id {r : Row} {o : CertOut} (h : rowToOut r = some o) : o.id = r.id := by
  simp only [rowToOut] at h
  cases hj : json_loads_string_list r.sans <;> rw [hj] at h
  · cases h
  · injection h with h2
    rw [← h2]

theorem rowToOut_key_invariant (r : Row) (k : String)
    (hk : (k = "") ↔ (r.private_key_pem = "")) :
    rowToOut { r with private_key_pem := k } = rowToOut r := by
  simp only [rowToOut]
  cases hj : json_loads_string_list r.sans <;> simp [hj, hk]

theorem mapRows_ids (rows : List Row) (outs : List CertOut)
    (h : mapRows rows = some outs) : outs.map (fun o => o.id) = rows.map (fun r => r.id) := by
  induction rows generalizing outs with
  | nil =>
    cases h
    rfl
  | cons r rs ih =>
    simp only [mapRows] at h
    cases ho : rowToOut r <;> rw [ho] at h
    · cases h
    · cases hrs : mapRows rs <;> rw [hrs] at h
      · cases h
      · injection h with h2
        rw [← h2]
        simp [rowToOut_id ho, ih _ hrs]

theorem mapRows_scrub (rows : List Row) (f : Row → String)
    (hf : ∀ r ∈ rows, (f r = "") ↔ (r.private_key_pem = "")) :
    mapRows (rows.map (fun r => { r with private_key_pem := f r })) = mapRows rows := by
  induction rows with
  | nil => rfl
  | cons r rs ih =>
    simp only [List.map_cons, mapRows]
    rw [rowToOut_key_invariant r (f r) (hf r (by simp)),
      ih (fun x hx => hf x (by simp [hx]))]

theorem list_certs_key_invariant (s : Store) (f : Row → String)
    (hf : ∀ r ∈ s.rows, (f r = "") ↔ (r.private_key_pem = "")) :
    list_certs (s.scrubKeys f) = list_certs s := by
  unfold list_certs Store.scrubKeys sortByIdDesc
  dsimp only
  rw [← List.map_insertionSort rowGe rowGe (fun r => { r with private_key_pem := f r })
    s.rows (fun a _ b _ => Iff.rfl)]
  exact mapRows_scrub _ f (fun r hr => hf r (by simpa using (List.mem_insertionSort rowGe).mp hr))

theorem list_certs_sorted (s : Store) (outs : List CertOut) (h : list_certs s = some outs) :
    List.Pairwise (fun a b : CertOut => b.id ≤ a.id) outs := by
  have hs : List.Pairwise rowGe (sortByIdDesc s.rows) := List.sorted_insertionSort rowGe s.rows
  have hids := mapRows_ids _ _ h
  have hp : List.Pairwise (fun a b : Nat => b ≤ a) ((sortByIdDesc s.rows).map (fun r => r.id)) :=
    List.pairwise_map.mpr hs
  rw [← hids] at hp
  exact List.pairwise_map.mp hp

theorem list_certs_sorted_strict (s : Store) (outs : List CertOut)
    (h : list_certs s = some outs) (hnd : (s.rows.map (fun r => r.id)).Nodup) :
    List.Pairwise (fun a b : CertOut => b.id < a.id) outs := by
  have hle := list_certs_sorted s outs h
  have hperm : List.Perm ((sortByIdDesc s.rows).map (fun r => r.id))
      (s.rows.map (fun r => r.id)) :=
    (List.perm_insertionSort rowGe s.rows).map _
  have hnd2 : ((sortByIdDesc s.rows).map (fun r => r.id)).Nodup := hperm.nodup_iff.mpr hnd
  rw [← mapRows_ids _ _ h] at hnd2
  have hne : List.Pairwise (fun a b : CertOut => a.id ≠ b.id) outs :=
    List.pairwise_map.mp hnd2
  have hand := hle.and hne
  exact hand.imp (fun hab => lt_of_le_of_ne hab.1 (Ne.symm hab.2))

/-- C1: for every certificate-creation request whose validity resolves, if
the CA call fails in any way (transport error, non-200 status, falsy
success flag, or missing certificate / private-key field despite success),
`POST /certs` raises an error and the store is unchanged (so the row count
before equals the count after); if the CA call succeeds, the outcome is ok
and exactly one new row is appended to the store. -/
theorem c1_ca_failure_no_row_success_one_row
    (payload : CertCreate) (now : Int) (ca : CFSSLRequest → CAOutcome) (s : Store) (d : Int)
    (hres : resolve_validity_days payload = .ok d) :
    (caFails (ca (build_cfssl_request payload)) = true →
      (∃ e, (create_cert payload now ca s).outcome = .error e) ∧
      (create_cert payload now ca s).store = s ∧
      (create_cert payload now ca s).store.rows.length = s.rows.length) ∧
    (caFails (ca (build_cfssl_request payload)) = false →
      (∃ resp, (create_cert payload now ca s).outcome = .ok resp) ∧
      (∃ row, (create_cert payload now ca s).store.rows = s.rows ++ [row]) ∧
      (create_cert payload now ca s).store.rows.length = s.rows.length + 1) := by
  constructor
  · intro hfail
    cases hca : ca (build_cfssl_request payload) with
    | transportError msg =>
      rw [create_cert_transport payload now ca s d msg hres hca]
      exact ⟨⟨_, rfl⟩, rfl, rfl⟩
    | httpResponse code text body =>
      rw [hca] at hfail
      by_cases hcode : code = 200
      · subst hcode
        by_cases hsucc : body.success
        · cases hcert : pyTruthy body.result.certificate with
          | none =>
            rw [create_cert_missingField payload now ca s d text body hres hca
              (by simpa using hsucc) (Or.inl hcert)]
            exact ⟨⟨_, rfl⟩, rfl, rfl⟩
          | some cert =>
            cases hkey : pyTruthy body.result.private_key with
            | none =>
              rw [create_cert_missingField payload now ca s d text body hres hca
                (by simpa using hsucc) (Or.inr hkey)]
              exact ⟨⟨_, rfl⟩, rfl, rfl⟩
            | some key =>
              simp [caFails, hsucc, hcert, hkey] at hfail
        · rw [create_cert_notSuccess payload now ca s d text body hres hca
            (by simpa using hsucc)]
          exact ⟨⟨_, rfl⟩, rfl, rfl⟩
      · rw [create_cert_badStatus payload now ca s d code text body hres hca hcode]
        exact ⟨⟨_, rfl⟩, rfl, rfl⟩
  · intro hok
    cases hca : ca (build_cfssl_request payload) with
    | transportError msg =>
      rw [hca] at hok
      simp [caFails] at hok
    | httpResponse code text body =>
      rw [hca] at hok
      by_cases hcode : code = 200
      · subst hcode
        by_cases hsucc : body.success
        · cases hcert : pyTruthy body.result.certificate with
          | none => simp [caFails, hsucc, hcert] at hok
          | some cert =>
            cases hkey : pyTruthy body.result.private_key with
            | none => simp [caFails, hsucc, hcert, hkey] at hok
            | some key =>
              rw [create_cert_successful payload now ca s d text body cert key hres hca
                (by simpa using hsucc) hcert hkey]
              refine ⟨⟨_, rfl⟩, ⟨_, rfl⟩, ?_⟩
              simp
        · have hsf : body.success = false := by
            cases hb : body.success
            · rfl
            · exact absurd hb hsucc
          simp [caFails, hsf] at hok
      · simp [caFails, hcode] at hok

/-- Witness for C1 at a concrete input: the default one-year request
against an unreachable CA leaves the one-row store unchanged and returns
an error. -/
theorem c1_witness :
    resolve_validity_days samplePayload = .ok 365 ∧
    caFails (caRefused (build_cfssl_request samplePayload)) = true ∧
    (∃ e, (create_cert samplePayload 0 caRefused sampleStore).outcome = .error e) ∧
    (create_cert samplePayload 0 caRefused sampleStore).store = sampleStore := by
  have h := (c1_ca_failure_no_row_success_one_row samplePayload 0 caRefused sampleStore 365
    (by decide)).1 (by decide)
  exact ⟨by decide, by decide, h.1, h.2.1⟩

/-- C2: whenever the lower-cased validity option is one of the four
presets, the resolved day-count is exactly 365, 1095, 1825 or 3650, for
every payload (in particular for every value of the custom
`validity_days` field, present or absent). -/
theorem c2_presets_fixed_days (payload : CertCreate) :
    (pyLower payload.validity_option = "1y" → resolve_validity_days payload = .ok 365) ∧
    (pyLower payload.validity_option = "3y" → resolve_validity_days payload = .ok 1095) ∧
    (pyLower payload.validity_option = "5y" → resolve_validity_days payload = .ok 1825) ∧
    (pyLower payload.validity_option = "10y" → resolve_validity_days payload = .ok 3650) := by
  refine ⟨fun h => ?_, fun h => ?_, fun h => ?_, fun h => ?_⟩ <;>
    exact resolve_preset payload _ _ (toLower_ne_empty h (by decide)) h (by decide)

/-- Witness for C2 at a concrete input: `"1Y"` with a supplied custom
count of 999 still resolves to exactly 365 days. -/
theorem c2_witness :
    pyLower upperPayload.validity_option = "1y" ∧
    upperPayload.validity_days = some 999 ∧
    resolve_validity_days upperPayload = .ok 365 :=
  ⟨by decide, by decide, (c2_presets_fixed_days upperPayload).1 (by decide)⟩

theorem create_cert_ok_inversion (payload : CertCreate) (now : Int)
    (ca : CFSSLRequest → CAOutcome) (s : Store) {resp : CertCreateResponse}
    (h : (create_cert payload now ca s).outcome = .ok resp) :
    ∃ d text body cert key,
      resolve_validity_days payload = .ok d ∧
      ca (build_cfssl_request payload) = .httpResponse 200 text body ∧
      body.success = true ∧
      pyTruthy body.result.certificate = some cert ∧
      pyTruthy body.result.private_key = some key ∧
      create_cert payload now ca s =
        ⟨.ok
          { id := s.nextId
            cn := payload.cn
            sans := if payload.sans.isEmpty then [payload.cn] else payload.sans
            serial_number := body.result.serial_number
            profile := payload.profile
            issued_at := now
            expires_at := now + d * 86400
            status := "valid"
            certificate_pem := cert
            has_private_key := true
            validity_days := some d
            private_key_pem := key },
        { nextId := s.nextId + 1
          rows := s.rows ++
            [{ id := s.nextId
               cn := payload.cn
               sans := json_dumps_string_list
                 (if payload.sans.isEmpty then [payload.cn] else payload.sans)
               serial_number := body.result.serial_number
               profile := payload.profile
               issued_at := now
               expires_at := now + d * 86400
               validity_days := some d
               status := "valid"
               certificate_pem := cert
               private_key_pem := key
               created_at := now }] },
        true⟩ := by
  cases hres : resolve_validity_days payload with
  | error e =>
    rw [create_cert_resolve_error payload now ca s e hres] at h
    simp at h
  | ok d =>
    cases hca : ca (build_cfssl_request payload) with
    | transportError msg =>
      rw [create_cert_transport payload now ca s d msg hres hca] at h
      simp at h
    | httpResponse code text body =>
      by_cases hcode : code = 200
      · subst hcode
        by_cases hsucc : body.success
        · cases hcert : pyTruthy body.result.certificate with
          | none =>
            rw [create_cert_missingField payload now ca s d text body hres hca
              (by simpa using hsucc) (Or.inl hcert)] at h
            simp at h
          | some cert =>
            cases hkey : pyTruthy body.result.private_key with
            | none =>
              rw [create_cert_missingField payload now ca s d text body hres hca
                (by simpa using hsucc) (Or.inr hkey)] at h
              simp at h
            | some key =>
              exact ⟨d, text, body, cert, key, rfl, rfl, by simpa using hsucc, hcert, hkey,
                create_cert_successful payload now ca s d text body cert key hres hca
                  (by simpa using hsucc) hcert hkey⟩
        · have hsf : body.success = false := by
            cases hb : body.success
            · rfl
            · exact absurd hb hsucc
          rw [create_cert_notSuccess payload now ca s d text body hres hca hsf] at h
          simp at h
      · rw [create_cert_badStatus payload now ca s d code text body hres hca hcode] at h
        simp at h

/-- C3: for a request whose validity option is `custom`
(case-insensitively), resolution fails with HTTP 400 when the custom day
count is absent or not strictly positive; when it is a positive `dd`,
resolution returns `dd`, and any record the creation then produces (both
the returned response and the inserted row) satisfies
`expires_at = issued_at + dd` days exactly. -/
theorem c3_custom_validity (payload : CertCreate)
    (hc : pyLower payload.validity_option = "custom") :
    ((payload.validity_days = none ∨ ∃ dd, payload.validity_days = some dd ∧ dd ≤ 0) →
      ∃ e, resolve_validity_days payload = .error e ∧ e.status_code = 400) ∧
    (∀ dd : Int, payload.validity_days = some dd → 0 < dd →
      resolve_validity_days payload = .ok dd ∧
      ∀ (now : Int) (ca : CFSSLRequest → CAOutcome) (s : Store) (resp : CertCreateResponse),
        (create_cert payload now ca s).outcome = .ok resp →
          resp.expires_at = resp.issued_at + dd * 86400 ∧
          ∃ row, (create_cert payload now ca s).store.rows = s.rows ++ [row] ∧
            row.expires_at = row.issued_at + dd * 86400) := by
  have hne := toLower_ne_empty hc (by decide)
  constructor
  · rintro (hnone | ⟨dd, hdd, hle⟩)
    · exact ⟨_, resolve_custom_none payload hne hc hnone, rfl⟩
    · exact ⟨_, resolve_custom_nonpos payload dd hne hc hdd hle, rfl⟩
  · intro dd hdd hpos
    have hres := resolve_custom_pos payload dd hne hc hdd hpos
    refine ⟨hres, fun now ca s resp hresp => ?_⟩
    obtain ⟨d, text, body, cert, key, hres2, hca, hsucc, hcert, hkey, heq⟩ :=
      create_cert_ok_inversion payload now ca s hresp
    have hd : d = dd := by
      rw [hres] at hres2
      injection hres2 with h2
      exact h2.symm
    subst hd
    rw [heq] at hresp
    injection hresp with h2
    subst h2
    rw [heq]
    exact ⟨rfl, ⟨_, rfl, rfl⟩⟩

/-- Witness for C3 at concrete inputs: an absent custom day count fails
with 400; 90 days resolves to 90 and the created record expires exactly
90 days after issuance. -/
theorem c3_witness :
    pyLower customPayload.validity_option = "custom" ∧
    (∃ e, resolve_validity_days customBadPayload = .error e ∧ e.status_code = 400) ∧
    resolve_validity_days customPayload = .ok 90 ∧
    ∃ resp, (create_cert customPayload 0 caOk sampleStore).outcome = .ok resp ∧
      resp.expires_at = resp.issued_at + 90 * 86400 ∧
      ∃ row, (create_cert customPayload 0 caOk sampleStore).store.rows =
          sampleStore.rows ++ [row] ∧
        row.expires_at = row.issued_at + 90 * 86400 := by
  have h1 := (c3_custom_validity customBadPayload (by decide)).1 (Or.inl (by decide))
  have h2 := (c3_custom_validity customPayload (by decide)).2 90 (by decide) (by decide)
  refine ⟨by decide, h1, h2.1, ?_⟩
  refine ⟨⟨⟨2, "web.example.com", ["web.example.com"], some "1234", none, 0, 7776000,
    "valid", "CERT", true, some 90⟩, "KEY"⟩, by decide, ?_⟩
  exact h2.2 0 caOk sampleStore _ (by decide)

/-- C4 counterexample: the empty validity option is neither one of the
four presets nor `"custom"` (case-insensitively), yet `POST /certs`
neither fails with 400 nor skips the CA call on it: the empty string is
falsy in Python, so `payload.validity_option or "1y"` resolves it to 365
days and the CA endpoint is contacted. -/
theorem c4_counterexample :
    VALIDITY_OPTIONS_DAYS (pyLower emptyPayload.validity_option) = none ∧
    pyLower emptyPayload.validity_option ≠ "custom" ∧
    resolve_validity_days emptyPayload = .ok 365 ∧
    (create_cert emptyPayload 0 caRefused sampleStore).caCalled = true :=
  ⟨by decide, by decide, by decide, by decide⟩

/-- C4 (amended): for every request whose validity option is non-empty
and, lower-cased, neither one of the four presets nor `"custom"`,
`POST /certs` fails with an HTTP 400 error, makes no call to the CA
endpoint, and leaves the store unchanged.  (The amendment excludes the
empty string, which Python's `or` replaces by the default `"1y"`.) -/
theorem c4_unknown_option_no_ca_call
    (payload : CertCreate) (now : Int) (ca : CFSSLRequest → CAOutcome) (s : Store)
    (hne : payload.validity_option ≠ "")
    (hnp : VALIDITY_OPTIONS_DAYS (pyLower payload.validity_option) = none)
    (hnc : pyLower payload.validity_option ≠ "custom") :
    (∃ e, (create_cert payload now ca s).outcome = .error e ∧ e.status_code = 400) ∧
    (create_cert payload now ca s).caCalled = false ∧
    (create_cert payload now ca s).store = s := by
  have hres := resolve_unknown payload hne hnp hnc
  rw [create_cert_resolve_error payload now ca s _ hres]
  exact ⟨⟨_, rfl, rfl⟩, rfl, rfl⟩

/-- Witness for the amended C4 at a concrete input: option `"2y"` fails
with 400 and the CA is never contacted. -/
theorem c4_witness :
    unknownPayload.validity_option ≠ "" ∧
    VALIDITY_OPTIONS_DAYS (pyLower unknownPayload.validity_option) = none ∧
    pyLower unknownPayload.validity_option ≠ "custom" ∧
    (∃ e, (create_cert unknownPayload 0 caRefused sampleStore).outcome = .error e ∧
      e.status_code = 400) ∧
    (create_cert unknownPayload 0 caRefused sampleStore).caCalled = false := by
  have h := c4_unknown_option_no_ca_call unknownPayload 0 caRefused sampleStore
    (by decide) (by decide) (by decide)
  exact ⟨by decide, by decide, by decide, h.1, h.2.1⟩

/-- C5: for every stored record, `GET /certs/(id)/download.pem` returns a
body equal to the certificate PEM, a newline, the private-key PEM, and a
newline, as an attachment named
`cert_(id)_(common name with dots replaced by underscores).pem`. -/
theorem c5_download_pem (s : Store) (cert_id : Nat) (row : Row)
    (h : _get_certificate_row s cert_id = .ok row) :
    download_pem s cert_id = .ok
      { body := row.certificate_pem ++ "\n" ++ row.private_key_pem ++ "\n"
        media_type := "application/x-pem-file"
        filename := "cert_" ++ toString cert_id ++ "_" ++ replaceDots row.cn ++ ".pem" } := by
  simp [download_pem, h]

/-- Witness for C5 at a concrete input: the sample record downloads as
`CERT\nKEY\n` under the filename `cert_1_web_example_com.pem`. -/
theorem c5_witness :
    _get_certificate_row sampleStore 1 = .ok sampleRow ∧
    download_pem sampleStore 1 = .ok
      { body := "CERT\nKEY\n"
        media_type := "application/x-pem-file"
        filename := "cert_1_web_example_com.pem" } :=
  ⟨by decide, (c5_download_pem sampleStore 1 sampleRow (by decide)).trans (by decide)⟩

/-- C6 counterexample: the claim says both download operations fail on a
record with an empty private key, but `download.pem` performs no such
check: on a concrete store holding a key-less record it succeeds and
returns the bundle with an empty key section. -/
theorem c6_counterexample :
    _get_certificate_row keylessStore 1 = .ok keylessRow ∧
    keylessRow.private_key_pem = "" ∧
    download_pem keylessStore 1 = .ok
      { body := "CERT\n\n"
        media_type := "application/x-pem-file"
        filename := "cert_1_web_example_com.pem" } :=
  ⟨by decide, by decide, by decide⟩

/-- C6 (amended): for every stored record whose private-key column is
empty, `GET /certs/(id)/download.p12` fails with a 404 NotFound error;
`GET /certs/(id)/download.pem` does not check the key and succeeds,
returning the certificate followed by an empty key section. -/
theorem c6_empty_key_downloads (s : Store) (cert_id : Nat) (pw : Option String) (row : Row)
    (h : _get_certificate_row s cert_id = .ok row)
    (hkey : row.private_key_pem = "") :
    download_p12 s cert_id pw = .error ⟨404, "Private key not available"⟩ ∧
    download_pem s cert_id = .ok
      { body := row.certificate_pem ++ "\n" ++ "" ++ "\n"
        media_type := "application/x-pem-file"
        filename := "cert_" ++ toString cert_id ++ "_" ++ replaceDots row.cn ++ ".pem" } := by
  constructor
  · simp [download_p12, h, hkey]
  · simp [download_pem, h, hkey]

/-- Witness for the amended C6 at a concrete input: the key-less sample
record makes `download.p12` fail with 404 while `download.pem` succeeds. -/
theorem c6_witness :
    _get_certificate_row keylessStore 1 = .ok keylessRow ∧
    keylessRow.private_key_pem = "" ∧
    download_p12 keylessStore 1 (some "pw") = .error ⟨404, "Private key not available"⟩ ∧
    ∃ p, download_pem keylessStore 1 = .ok p := by
  have h := c6_empty_key_downloads keylessStore 1 (some "pw") keylessRow (by decide) (by decide)
  exact ⟨by decide, by decide, h.1, ⟨_, h.2⟩⟩

/-- C9: for every stored record with a non-empty private key,
`GET /certs/(id)/download.p12` produces a PKCS#12 container whose
friendly name is the record's common name, re-encoding the stored PEM
pair; it is encrypted with the library's best-available algorithm for the
given password exactly when the password query parameter is present and
non-empty, and unencrypted when it is absent or empty. -/
theorem c9_download_p12 (s : Store) (cert_id : Nat) (pw : Option String) (row : Row)
    (h : _get_certificate_row s cert_id = .ok row)
    (hkey : row.private_key_pem ≠ "") :
    ∃ res, download_p12 s cert_id pw = .ok res ∧
      res.friendly_name = row.cn ∧
      res.cert_pem = row.certificate_pem ∧
      res.key_pem = row.private_key_pem ∧
      (∀ p, pw = some p → p ≠ "" → res.encryption = .bestAvailable p) ∧
      ((pw = none ∨ pw = some "") → res.encryption = .noEncryption) := by
  have hd : download_p12 s cert_id pw = .ok
      { friendly_name := row.cn
        key_pem := row.private_key_pem
        cert_pem := row.certificate_pem
        encryption :=
          match pyTruthy pw with
          | some p => EncryptionAlg.bestAvailable p
          | none => EncryptionAlg.noEncryption
        media_type := "application/x-pkcs12"
        filename := "cert_" ++ toString cert_id ++ "_" ++ replaceDots row.cn ++ ".p12" } := by
    simp [download_p12, h, hkey]
  refine ⟨_, hd, rfl, rfl, rfl, ?_, ?_⟩
  · intro p hp hpne
    subst hp
    simp [pyTruthy, hpne]
  · rintro (hp | hp) <;> subst hp <;> simp [pyTruthy]

/-- Witness for C9 at a concrete input: with password `"secret"` the
container is password-encrypted and carries the record's common name. -/
theorem c9_witness :
    _get_certificate_row sampleStore 1 = .ok sampleRow ∧
    sampleRow.private_key_pem ≠ "" ∧
    ∃ res, download_p12 sampleStore 1 (some "secret") = .ok res ∧
      res.friendly_name = sampleRow.cn ∧ res.encryption = .bestAvailable "secret" := by
  obtain ⟨res, hd, hn, _, _, henc, _⟩ :=
    c9_download_p12 sampleStore 1 (some "secret") sampleRow (by decide) (by decide)
  exact ⟨by decide, by decide, res, hd, hn, henc "secret" rfl (by decide)⟩

theorem rowToOut_of_parse {r : Row} {l : List String}
    (h : json_loads_string_list r.sans = some l) :
    rowToOut r = some
      { id := r.id
        cn := r.cn
        sans := l
        serial_number := r.serial_number
        profile := r.profile
        issued_at := r.issued_at
        expires_at := r.expires_at
        status := r.status
        certificate_pem := r.certificate_pem
        has_private_key := r.private_key_pem ≠ ""
        validity_days := r.validity_days } := by
  simp [rowToOut, h]

/-- C8: when a creation request supplies an empty `sans` list, `[cn]`
takes its place both in the `hosts` field of the CFSSL request and in the
`sans` column of the inserted row (which therefore parses back to the
non-empty `[cn]`). -/
theorem c8_empty_sans_defaults_to_cn
    (payload : CertCreate) (now : Int) (ca : CFSSLRequest → CAOutcome) (s : Store)
    (hsans : payload.sans = []) :
    (build_cfssl_request payload).request.hosts = [payload.cn] ∧
    ∀ resp, (create_cert payload now ca s).outcome = .ok resp →
      resp.sans = [payload.cn] ∧
      ∃ row, (create_cert payload now ca s).store.rows = s.rows ++ [row] ∧
        row.sans = json_dumps_string_list [payload.cn] ∧
        json_loads_string_list row.sans = some [payload.cn] ∧
        [payload.cn] ≠ ([] : List String) := by
  constructor
  · simp [build_cfssl_request, hsans]
  · intro resp hresp
    obtain ⟨d, text, body, cert, key, hres, hca, hsucc, hcert, hkey, heq⟩ :=
      create_cert_ok_inversion payload now ca s hresp
    rw [heq] at hresp
    injection hresp with h2
    subst h2
    rw [heq]
    refine ⟨by simp [hsans], _, rfl, by simp [hsans], ?_, by simp⟩
    simp only [hsans, List.isEmpty_nil, if_true]
    exact json_roundtrip [payload.cn]

/-- Witness for C8 at a concrete input: the default request (empty sans)
sends `hosts = [cn]` and stores a row whose sans parse back to `[cn]`. -/
theorem c8_witness :
    samplePayload.sans = [] ∧
    (build_cfssl_request samplePayload).request.hosts = [samplePayload.cn] ∧
    ∃ row, (create_cert samplePayload 0 caOk sampleStore).store.rows =
        sampleStore.rows ++ [row] ∧
      json_loads_string_list row.sans = some [samplePayload.cn] := by
  have h := c8_empty_sans_defaults_to_cn samplePayload 0 caOk sampleStore (by decide)
  have h2 := h.2 ⟨⟨2, "web.example.com", ["web.example.com"], some "1234", none, 0, 31536000,
    "valid", "CERT", true, some 365⟩, "KEY"⟩ (by decide)
  obtain ⟨_, row, hrow, _, hloads, _⟩ := h2
  exact ⟨by decide, h.1, row, hrow, hloads⟩

/-- C10: the sans list stored at creation (JSON-serialized on insert) is
recovered exactly, element for element and in order, by the JSON parse
that `GET /certs` performs on the stored row. -/
theorem c10_sans_roundtrip
    (payload : CertCreate) (now : Int) (ca : CFSSLRequest → CAOutcome) (s : Store)
    (resp : CertCreateResponse) (hresp : (create_cert payload now ca s).outcome = .ok resp) :
    ∃ row out,
      (create_cert payload now ca s).store.rows = s.rows ++ [row] ∧
      row.sans = json_dumps_string_list
        (if payload.sans.isEmpty then [payload.cn] else payload.sans) ∧
      rowToOut row = some out ∧
      out.sans = (if payload.sans.isEmpty then [payload.cn] else payload.sans) := by
  obtain ⟨d, text, body, cert, key, hres, hca, hsucc, hcert, hkey, heq⟩ :=
    create_cert_ok_inversion payload now ca s hresp
  rw [heq]
  exact ⟨_, _, rfl, rfl,
    rowToOut_of_parse
      (json_roundtrip (if payload.sans.isEmpty then [payload.cn] else payload.sans)), rfl⟩

/-- Witness for C10 at a concrete input: the created row's stored sans
parse back to the defaulted `[cn]` list in its `GET /certs` summary. -/
theorem c10_witness :
    ∃ row out, (create_cert samplePayload 0 caOk sampleStore).store.rows =
        sampleStore.rows ++ [row] ∧
      rowToOut row = some out ∧
      out.sans = [samplePayload.cn] := by
  obtain ⟨row, out, hrow, _, hout, hsans⟩ :=
    c10_sans_roundtrip samplePayload 0 caOk sampleStore
      ⟨⟨2, "web.example.com", ["web.example.com"], some "1234", none, 0, 31536000,
        "valid", "CERT", true, some 365⟩, "KEY"⟩ (by decide)
  refine ⟨row, out, hrow, hout, ?_⟩
  rw [hsans]
  decide

/-- C7: `GET /certs` returns the summaries ordered by id descending
(strictly so when the stored ids are distinct, as AUTOINCREMENT
guarantees); a summary depends on the private-key column only through its
emptiness — replacing every key by any other material of the same
emptiness leaves the entire listing unchanged, so no summary contains the
raw key, only the boolean flag; and every record created via
`POST /certs` has that flag true, both in the creation response and in
its listing summary. -/
theorem c7_list_certs_contract :
    (∀ (s : Store) (outs : List CertOut), list_certs s = some outs →
      List.Pairwise (fun a b : CertOut => b.id ≤ a.id) outs ∧
      ((s.rows.map (fun r => r.id)).Nodup →
        List.Pairwise (fun a b : CertOut => b.id < a.id) outs)) ∧
    (∀ (s : Store) (f : Row → String),
      (∀ r ∈ s.rows, (f r = "") ↔ (r.private_key_pem = "")) →
      list_certs (s.scrubKeys f) = list_certs s) ∧
    (∀ (payload : CertCreate) (now : Int) (ca : CFSSLRequest → CAOutcome) (s : Store)
      (resp : CertCreateResponse),
      (create_cert payload now ca s).outcome = .ok resp →
      resp.has_private_key = true ∧
      ∃ row out, (create_cert payload now ca s).store.rows = s.rows ++ [row] ∧
        rowToOut row = some out ∧ out.has_private_key = true) := by
  refine ⟨fun s outs h =>
      ⟨list_certs_sorted s outs h, fun hnd => list_certs_sorted_strict s outs h hnd⟩,
    list_certs_key_invariant, ?_⟩
  intro payload now ca s resp hresp
  obtain ⟨d, text, body, cert, key, hres, hca, hsucc, hcert, hkey, heq⟩ :=
    create_cert_ok_inversion payload now ca s hresp
  rw [heq] at hresp
  injection hresp with h2
  subst h2
  rw [heq]
  refine ⟨rfl, _, _, rfl, rowToOut_of_parse (json_roundtrip _), ?_⟩
  simp [pyTruthy_ne_empty hkey]

/-- Witness for C7 at concrete inputs: the one-row sample store lists in
descending order, its listing is unchanged when the key column is
replaced by other non-empty material, and a freshly created record's
summary has the has-private-key flag set. -/
theorem c7_witness :
    (∃ outs, list_certs sampleStore = some outs ∧
      List.Pairwise (fun a b : CertOut => b.id ≤ a.id) outs) ∧
    list_certs (sampleStore.scrubKeys (fun _ => "OTHER")) = list_certs sampleStore ∧
    ∃ row out, (create_cert samplePayload 0 caOk sampleStore).store.rows =
        sampleStore.rows ++ [row] ∧
      rowToOut row = some out ∧ out.has_private_key = true := by
  have hlist : list_certs sampleStore = some
      [⟨1, "web.example.com", ["web.example.com"], some "1234", none, 0, 31536000,
        "valid", "CERT", true, some 365⟩] := by decide
  refine ⟨⟨_, hlist, (c7_list_certs_contract.1 sampleStore _ hlist).1⟩,
    c7_list_certs_contract.2.1 sampleStore (fun _ => "OTHER")
      (fun r hr => by simp only [sampleStore, List.mem_singleton] at hr; subst hr; decide), ?_⟩
  obtain ⟨_, row, out, hrow, hout, hflag⟩ :=
    c7_list_certs_contract.2.2 samplePayload 0 caOk sampleStore
      ⟨⟨2, "web.example.com", ["web.example.com"], some "1234", none, 0, 31536000,
        "valid", "CERT", true, some 365⟩, "KEY"⟩ (by decide)
  exact ⟨row, out, hrow, hout, hflag⟩
